import Mathlib

/-!
Verification of the two setup scripts of the gemma3-270m browser demo
repository: the setup verifier (check_setup.py) and the model converter
(convert_gemma.py).  The filesystem is modelled as an association list
from absolute paths (component lists) to nodes; external library calls
(imports, model/tokenizer loading and saving, descriptor writes) are
modelled as oracle fields of an environment record, since their behaviour
is owned by third-party code.
-/

namespace GemmaSetup

/-- A filesystem path, as the list of its components from the root. -/
abbrev FsPath := List String

/-- Helper for `splitPath`: split a character list on the slash
character, accumulating the current component in reverse. -/
def splitComps : List Char → List Char → List String
  | [], cur => [String.mk cur.reverse]
  | c :: rest, cur =>
      if c = '/' then String.mk cur.reverse :: splitComps rest []
      else splitComps rest (c :: cur)

/-- Split a relative path string on the slash separator, as the
pathlib `/` operator does with string arguments. -/
def splitPath (s : String) : List String := splitComps s.data []

/-- Resolve a relative component list against a base absolute path,
with a double-dot component meaning the parent directory. -/
def resolve : FsPath → List String → FsPath
  | base, [] => base
  | base, c :: rest =>
      if c = ".." then resolve base.dropLast rest else resolve (base ++ [c]) rest

/-- The content of the config descriptor assembled by
`convert_model_to_onnx` (convert_gemma.py lines 98 to 109), one field per
key of the Python dict. -/
structure Config where
  model_type : String
  task : String
  onnx_file : String
  tokenizer_file : String
  architecture : String
  max_position_embeddings : Nat
  vocab_size : Nat
  conversion_date : String
  source : String
  quantized : Bool
deriving DecidableEq, Repr

/-- The content of the browser manifest assembled by
`create_browser_manifest` (convert_gemma.py lines 129 to 148); the nested
Python dicts are flattened into prefixed fields. -/
structure Manifest where
  name : String
  version : String
  description : String
  files_model : String
  files_tokenizer : String
  files_config : String
  req_webgpu : Bool
  req_memory_mb : Nat
  req_browser : List String
  usage_max_tokens : Nat
  usage_temperature : Rat
  usage_top_p : Rat
deriving DecidableEq, Repr

/-- The data the loaded tokenizer exposes to the converter: its reported
vocabulary size, and the byte size of the tokenizer file its export
writes.  The tokenizer itself is external library state. -/
structure TokInfo where
  vocab_size : Nat
  jsonSize : Nat
deriving DecidableEq, Repr

/-- A rough serialization of the config descriptor, used only to give the
written `config.json` a byte size; the byte-exact output of the Python
json.dump call is not modelled, and no claim depends on it. -/
def Config.render (c : Config) : String :=
  String.intercalate ", " [c.model_type, c.task, c.onnx_file, c.tokenizer_file,
    c.architecture, toString c.max_position_embeddings, toString c.vocab_size,
    c.conversion_date, c.source, toString c.quantized]

/-- A rough serialization of the manifest descriptor, used only to give the
written `manifest.json` a byte size; the byte-exact output of the Python
json.dump call is not modelled, and no claim depends on it. -/
def Manifest.render (m : Manifest) : String :=
  String.intercalate ", " ([m.name, m.version, m.description, m.files_model,
    m.files_tokenizer, m.files_config, toString m.req_webgpu,
    toString m.req_memory_mb] ++ m.req_browser ++
    [toString m.usage_max_tokens, toString m.usage_temperature, toString m.usage_top_p])

/-- The content of a regular file in the model: an externally produced
artifact of a given byte size, or one of the two JSON descriptors the
converter itself writes. -/
inductive FileData where
  | raw (size : Nat)
  | configFile (c : Config)
  | manifestFile (m : Manifest)
deriving DecidableEq, Repr

/-- The byte size of a file, as reported by a stat call. -/
def FileData.size : FileData → Nat
  | .raw s => s
  | .configFile c => c.render.length
  | .manifestFile m => m.render.length

/-- A filesystem node: a directory or a regular file. -/
inductive Node where
  | dir
  | file (data : FileData)
deriving DecidableEq, Repr

/-- The filesystem: an association list from absolute paths to nodes,
newest entry first (a written entry shadows an older one). -/
abbrev FS := List (FsPath × Node)

instance : Nonempty FS := ⟨[]⟩

/-- Look a path up in the filesystem; `none` means the path does not
exist. -/
def FS.find : FS → FsPath → Option Node
  | [], _ => none
  | (q, n) :: rest, p => if q = p then some n else FS.find rest p

/-- Write a regular file, overwriting whatever was at that path. -/
def FS.write (fs : FS) (p : FsPath) (d : FileData) : FS :=
  (p, Node.file d) :: fs

/-- One `Path.mkdir(exist_ok=True)` call: succeed silently when the path
is already a directory, raise when it is occupied by a regular file,
create it otherwise. -/
def FS.mkdir1 (fs : FS) (p : FsPath) : Except String FS :=
  match fs.find p with
  | some Node.dir => .ok fs
  | some (Node.file _) => .error "FileExistsError"
  | none => .ok ((p, Node.dir) :: fs)

/-- The parent-creating part of `Path.mkdir(parents=True, exist_ok=True)`:
walk down the components of the target, creating each missing prefix as a
directory, raising if some prefix is occupied by a regular file. -/
def mkdirAlong (fs : FS) (done : FsPath) : List String → Except String FS
  | [] => .ok fs
  | c :: cs =>
      match fs.mkdir1 (done ++ [c]) with
      | .error e => .error e
      | .ok fs1 => mkdirAlong fs1 (done ++ [c]) cs

/-- The call `Path.mkdir(parents=True, exist_ok=True)` on an absolute
path. -/
def FS.mkdirP (fs : FS) (p : FsPath) : Except String FS :=
  mkdirAlong fs [] p

/-- A console or process effect: a printed line, or a `sys.exit` call
with an exit code. -/
inductive Eff where
  | print (s : String)
  | exitCall (code : Nat)
deriving DecidableEq, Repr

/-- The process exit code determined by a trace of effects: the code of
the first `sys.exit` call, or zero when the program runs to the end. -/
def exitCodeOf : List Eff → Nat
  | [] => 0
  | Eff.exitCall n :: _ => n
  | Eff.print _ :: rest => exitCodeOf rest

/-- Round a rational to the nearest integer, ties to the even neighbour.
This is the rounding CPython string formatting applies to a float value:
for a byte count below 2 to the 53rd, the Python expression
size divided by 1048576 is exact in double precision, and formatting it
with one decimal rounds the exact value with ties to even. -/
def roundHalfEven (q : Rat) : Int :=
  if q - ⌊q⌋ < 1 / 2 then ⌊q⌋
  else if 1 / 2 < q - ⌊q⌋ then ⌊q⌋ + 1
  else if ⌊q⌋ % 2 = 0 then ⌊q⌋ else ⌊q⌋ + 1

/-- The megabyte figure printed for a file of a given byte size
(check_setup.py line 96): the byte size divided by 1024 times 1024,
displayed with one decimal place. -/
def displayMB (size : Nat) : Rat :=
  (roundHalfEven ((size : Rat) / (1024 * 1024) * 10) : Rat) / 10

namespace CheckSetup

/-- check_setup.py lines 14 to 22: the fixed list of required project
files. -/
def required_files : List String :=
  ["index.html", "script.js", "styles.css", "gemma-loader.js",
   "convert_gemma.py", "requirements.txt", "CLAUDE.md"]

/-- check_setup.py `check_files` (lines 10 to 36): collect the required
files that do not exist relative to the working directory; the check
passes iff none is missing, and the missing ones are the names it
reports. -/
def check_files (cwd : FsPath) (fs : FS) : Bool × List String :=
  let missing := required_files.filter (fun f => ((fs.find (cwd ++ splitPath f)).isNone))
  (missing.isEmpty, missing)

/-- check_setup.py lines 42 to 49: the fixed list of dependency names the
verifier probes. -/
def deps : List String :=
  ["transformers", "optimum", "torch", "huggingface_hub", "onnx", "onnxruntime"]

/-- check_setup.py lines 54 to 57: the module actually imported to probe a
dependency name; the optimum entry probes its onnxruntime submodule. -/
def verifProbe (dep : String) : String :=
  if dep = "optimum" then "optimum.onnxruntime" else dep

/-- check_setup.py `check_python_deps` (lines 38 to 69) over an
importability oracle: the check passes iff every probed module imports,
and it reports exactly the dependency names whose probe failed. -/
def check_python_deps (importable : String → Bool) : Bool × List String :=
  let missing := deps.filter (fun d => !(importable (verifProbe d)))
  (missing.isEmpty, missing)

/-- check_setup.py `check_hf_auth` (lines 106 to 118): succeeds iff the
external hub identity query returns a user name rather than raising. -/
def check_hf_auth (whoamiResult : Except String String) : Bool :=
  match whoamiResult with
  | .ok _ => true
  | .error _ => false

/-- check_setup.py lines 82 to 87: the fixed list of required files
relative to the model root. -/
def required_model_files : List String :=
  ["onnx/model.onnx", "tokenizer/tokenizer.json", "config.json", "manifest.json"]

/-- The model root the verifier inspects: `models/gemma-3-270m-onnx`
relative to the working directory (check_setup.py line 75). -/
def verifModelDir (cwd : FsPath) : FsPath :=
  resolve cwd (splitPath "models/gemma-3-270m-onnx")

/-- The loop of check_setup.py lines 89 to 96: walk the required model
files in order, collecting the missing ones and, for each present one,
the size in megabytes it prints (byte size divided by 1048576 displayed
with one decimal).  A directory also counts as present, with the
filesystem-defined stat size of a directory modelled as zero. -/
def modelFilesLoop (fs : FS) (root : FsPath) : List String → List String × List (String × Rat)
  | [] => ([], [])
  | f :: rest =>
      let r := modelFilesLoop fs root rest
      match fs.find (root ++ splitPath f) with
      | some (Node.file d) => (r.1, (f, displayMB d.size) :: r.2)
      | some Node.dir => (r.1, (f, displayMB 0) :: r.2)
      | none => (f :: r.1, r.2)

/-- The outcome of the model-conversion check: the returned boolean, the
file names reported missing, and the per-file sizes reported for present
files. -/
structure ModelCheckResult where
  ok : Bool
  missing : List String
  sizesMB : List (String × Rat)
deriving DecidableEq, Repr

/-- check_setup.py `check_model_conversion` (lines 71 to 104): fail with
no per-file report when the model root does not exist; otherwise walk the
four required relative files, failing iff at least one is missing. -/
def check_model_conversion (cwd : FsPath) (fs : FS) : ModelCheckResult :=
  match fs.find (verifModelDir cwd) with
  | none => ⟨false, [], []⟩
  | some _ =>
      ⟨(modelFilesLoop fs (verifModelDir cwd) required_model_files).1.isEmpty,
       (modelFilesLoop fs (verifModelDir cwd) required_model_files).1,
       (modelFilesLoop fs (verifModelDir cwd) required_model_files).2⟩

/-- The result of a verifier run: the four check outcomes in order (file
presence, dependencies, authentication, model conversion) and the trace
of process-level effects. -/
structure VerifResult where
  checks : List Bool
  trace : List Eff
deriving DecidableEq, Repr

/-- check_setup.py `main` (lines 120 to 153): run the four checks in
order, then print a summary; no branch calls `sys.exit`, so the trace
contains prints only. -/
def main (cwd : FsPath) (fs : FS) (importable : String → Bool)
    (whoamiResult : Except String String) : VerifResult :=
  let c1 := (check_files cwd fs).1
  let c2 := (check_python_deps importable).1
  let c3 := check_hf_auth whoamiResult
  let c4 := (check_model_conversion cwd fs).ok
  { checks := [c1, c2, c3, c4],
    trace :=
      if c1 && c2 && c3 && c4 then
        [Eff.print "Setup complete! Ready to run the application."]
      else
        [Eff.print "Setup incomplete. Please address the issues above."] }

end CheckSetup

namespace ConvertGemma

/-- convert_gemma.py lines 18 to 23: the fixed list of required package
names the converter probes. -/
def required_packages : List String :=
  ["transformers", "optimum[onnxruntime]", "torch", "huggingface_hub"]

/-- convert_gemma.py lines 27 to 36: the module imported to probe a
required package; the optimum extra probes the optimum onnxruntime
submodule, every other entry imports its own name. -/
def convProbe (pkg : String) : String :=
  if pkg = "optimum[onnxruntime]" then "optimum.onnxruntime" else pkg

/-- convert_gemma.py `check_dependencies` (lines 16 to 47) over an
importability oracle: true iff every probed module imports. -/
def check_dependencies (importable : String → Bool) : Bool :=
  (required_packages.filter (fun p => !(importable (convProbe p)))).isEmpty

/-- The model root the converter creates and writes into:
`../web/models/gemma-3-270m-onnx` relative to the working directory
(convert_gemma.py line 51). -/
def convModelDir (cwd : FsPath) : FsPath :=
  resolve cwd (splitPath "../web/models/gemma-3-270m-onnx")

/-- convert_gemma.py `setup_directories` (lines 49 to 59): create the
model root with parents, then its onnx and tokenizer subdirectories,
each with exist_ok; return the updated filesystem and the model root. -/
def setup_directories (cwd : FsPath) (fs : FS) : Except String (FS × FsPath) :=
  match fs.mkdirP (convModelDir cwd) with
  | .error e => .error e
  | .ok fs1 =>
      match fs1.mkdir1 (convModelDir cwd ++ ["onnx"]) with
      | .error e => .error e
      | .ok fs2 =>
          match fs2.mkdir1 (convModelDir cwd ++ ["tokenizer"]) with
          | .error e => .error e
          | .ok fs3 => .ok (fs3, convModelDir cwd)

/-- The external world the converter interacts with.  Loading the model
and the tokenizer may depend on the authentication token and may raise;
each of the later save and write steps may raise independently (disk
errors).  An `.ok` value carries what the call produces. -/
structure ConvEnv where
  importable : String → Bool
  hfToken : Option String
  modelLoad : Option String → Except String Nat
  tokLoad : Option String → Except String TokInfo
  modelSave : Except String Unit
  tokSave : Except String Unit
  configWrite : Except String Unit
  manifestWrite : Except String Unit

/-- Modelled from the spec: the external model export routine
(`ort_model.save_pretrained`, convert_gemma.py line 92) is not part of
this repository; per the spec (sections 3 and 6) it persists the
exported onnx model file `model.onnx` under the onnx subdirectory of the
model root. -/
def saveModelFiles (fs : FS) (model_dir : FsPath) (modelSize : Nat) : FS :=
  fs.write (model_dir ++ ["onnx", "model.onnx"]) (FileData.raw modelSize)

/-- Modelled from the spec: the external tokenizer export routine
(`tokenizer.save_pretrained`, convert_gemma.py line 95) is not part of
this repository; per the spec (sections 3 and 6) it persists the
tokenizer file `tokenizer.json` under the tokenizer subdirectory of the
model root. -/
def saveTokenizerFiles (fs : FS) (model_dir : FsPath) (tok : TokInfo) : FS :=
  fs.write (model_dir ++ ["tokenizer", "tokenizer.json"]) (FileData.raw tok.jsonSize)

/-- The config dict assembled at convert_gemma.py lines 98 to 109; every
field is the literal from the source except the vocabulary size, which is
read from the loaded tokenizer. -/
def mkConfig (tokVocabSize : Nat) : Config :=
  { model_type := "gemma"
    task := "text-generation"
    onnx_file := "model.onnx"
    tokenizer_file := "tokenizer.json"
    architecture := "GemmaForCausalLM"
    max_position_embeddings := 2048
    vocab_size := tokVocabSize
    conversion_date := "2024"
    source := "google/gemma-3-270m"
    quantized := false }

/-- convert_gemma.py `convert_model_to_onnx` (lines 61 to 125): inside one
try block, import the two libraries, load the model, load the tokenizer,
save the model under onnx, save the tokenizer under tokenizer, and write
the config descriptor at the model root; any raise is caught and turns
into a false result, keeping the filesystem as written so far. -/
def convert_model_to_onnx (env : ConvEnv) (model_dir : FsPath) (fs : FS) : Bool × FS :=
  if !(env.importable "optimum.onnxruntime" && env.importable "transformers") then
    (false, fs)
  else
    match env.modelLoad env.hfToken with
    | .error _ => (false, fs)
    | .ok modelSize =>
        match env.tokLoad env.hfToken with
        | .error _ => (false, fs)
        | .ok tok =>
            match env.modelSave with
            | .error _ => (false, fs)
            | .ok _ =>
                let fs1 := saveModelFiles fs model_dir modelSize
                match env.tokSave with
                | .error _ => (false, fs1)
                | .ok _ =>
                    let fs2 := saveTokenizerFiles fs1 model_dir tok
                    match env.configWrite with
                    | .error _ => (false, fs2)
                    | .ok _ =>
                        (true,
                          fs2.write (model_dir ++ ["config.json"])
                            (FileData.configFile (mkConfig tok.vocab_size)))

/-- The manifest dict assembled at convert_gemma.py lines 129 to 148,
field by field. -/
def browserManifest : Manifest :=
  { name := "Gemma 3 270M"
    version := "1.0.0"
    description := "Gemma 3 270M converted to ONNX for browser usage"
    files_model := "onnx/model.onnx"
    files_tokenizer := "tokenizer/tokenizer.json"
    files_config := "config.json"
    req_webgpu := true
    req_memory_mb := 1024
    req_browser := ["chrome", "edge", "firefox-nightly"]
    usage_max_tokens := 2048
    usage_temperature := 7 / 10
    usage_top_p := 9 / 10 }

/-- convert_gemma.py `create_browser_manifest` (lines 127 to 153): write
the manifest descriptor at the model root. -/
def create_browser_manifest (fs : FS) (model_dir : FsPath) : FS :=
  fs.write (model_dir ++ ["manifest.json"]) (FileData.manifestFile browserManifest)

/-- convert_gemma.py lines 169 to 175: the line printed for the token
resolution, depending on whether HF_TOKEN is set. -/
def tokenLine (hfToken : Option String) : Eff :=
  match hfToken with
  | some _ => Eff.print "Using Hugging Face token from environment"
  | none => Eff.print "No HF_TOKEN found. You may need to authenticate"

/-- The result of a converter run: the trace of prints and sys.exit
calls up to termination, the final filesystem, and whether the run died
of an exception no handler caught (directory setup or the manifest
write raising). -/
structure ConvResult where
  trace : List Eff
  fs : FS
  crashed : Bool

/-- The process exit code of a converter run: 1 for an uncaught
exception, otherwise the code of the first sys.exit call, zero when the
run finishes normally. -/
def ConvResult.exitCode (r : ConvResult) : Nat :=
  if r.crashed then 1 else exitCodeOf r.trace

/-- convert_gemma.py `main` (lines 155 to 197): exit 1 when the
dependency check fails; create the directories (an exception here is
uncaught); resolve the token and print the corresponding line; convert;
on success write the manifest (an exception here is uncaught) and finish
normally, otherwise exit 1. -/
def main (env : ConvEnv) (cwd : FsPath) (fs0 : FS) : ConvResult :=
  if check_dependencies env.importable then
    match setup_directories cwd fs0 with
    | .error _ => { trace := [], fs := fs0, crashed := true }
    | .ok (fs1, model_dir) =>
        let tl := tokenLine env.hfToken
        match convert_model_to_onnx env model_dir fs1 with
        | (true, fs2) =>
            match env.manifestWrite with
            | .error _ => { trace := [tl], fs := fs2, crashed := true }
            | .ok _ =>
                { trace := [tl, Eff.print "Conversion completed successfully!"]
                  fs := create_browser_manifest fs2 model_dir
                  crashed := false }
        | (false, fs2) =>
            { trace := [tl, Eff.exitCall 1], fs := fs2, crashed := false }
  else { trace := [Eff.exitCall 1], fs := fs0, crashed := false }

end ConvertGemma

end GemmaSetup

example : GemmaSetup.splitPath "onnx/model.onnx" = ["onnx", "model.onnx"] := rfl

example : GemmaSetup.splitPath "../web/models/gemma-3-270m-onnx" =
    ["..", "web", "models", "gemma-3-270m-onnx"] := rfl

example : GemmaSetup.resolve ["home", "demo", "setup"]
    (GemmaSetup.splitPath "../web/models/gemma-3-270m-onnx") =
    ["home", "demo", "web", "models", "gemma-3-270m-onnx"] := by decide


namespace GemmaSetup

/-- A filter is empty exactly when the predicate holds of no element. -/
theorem filter_isEmpty_iff {α : Type} (p : α → Bool) (l : List α) :
    (l.filter p).isEmpty = true ↔ ∀ a ∈ l, p a = false := by
  rw [List.isEmpty_iff, List.filter_eq_nil_iff]
  simp

/-- A write leaves every existing path present. -/
theorem FS.find_write_isSome (fs : FS) (p q : FsPath) (d : FileData)
    (h : (fs.find q).isSome) : ((fs.write p d).find q).isSome := by
  by_cases hpq : p = q <;> simp [FS.write, FS.find, hpq, h]

/-- The written path holds the written file. -/
theorem FS.find_write_self (fs : FS) (p : FsPath) (d : FileData) :
    (fs.write p d).find p = some (Node.file d) := by
  simp [FS.write, FS.find]

/-- Writing one path does not change what another path holds. -/
theorem FS.find_write_ne (fs : FS) (p q : FsPath) (d : FileData) (h : ¬ p = q) :
    (fs.write p d).find q = fs.find q := by
  simp [FS.write, FS.find, h]

/-- A successful mkdir leaves its target a directory. -/
theorem mkdir1_ok_self {fs : FS} {p : FsPath} {fs2 : FS}
    (h : fs.mkdir1 p = .ok fs2) : fs2.find p = some Node.dir := by
  unfold FS.mkdir1 at h
  cases hf : fs.find p with
  | none =>
      rw [hf] at h
      cases h
      simp [FS.find]
  | some n =>
      cases n with
      | dir => rw [hf] at h; cases h; exact hf
      | file d => rw [hf] at h; cases h

/-- A successful mkdir preserves every existing binding. -/
theorem mkdir1_ok_keep {fs : FS} {p : FsPath} {fs2 : FS}
    (h : fs.mkdir1 p = .ok fs2) {q : FsPath} {n : Node}
    (hq : fs.find q = some n) : fs2.find q = some n := by
  unfold FS.mkdir1 at h
  cases hf : fs.find p with
  | none =>
      rw [hf] at h
      cases h
      have hpq : ¬ p = q := by
        intro he
        rw [he, hq] at hf
        cases hf
      simp [FS.find, hpq, hq]
  | some m =>
      cases m with
      | dir => rw [hf] at h; cases h; exact hq
      | file d => rw [hf] at h; cases h

/-- Creating a chain of directories preserves every existing binding. -/
theorem mkdirAlong_ok_keep {rest : List String} {fs : FS} {done : FsPath} {fs2 : FS}
    (h : mkdirAlong fs done rest = .ok fs2) {q : FsPath} {n : Node}
    (hq : fs.find q = some n) : fs2.find q = some n := by
  induction rest generalizing fs done with
  | nil => unfold mkdirAlong at h; cases h; exact hq
  | cons c cs ih =>
      unfold mkdirAlong at h
      cases hm : fs.mkdir1 (done ++ [c]) with
      | error e => rw [hm] at h; cases h
      | ok fs1 =>
          rw [hm] at h
          exact ih h (mkdir1_ok_keep hm hq)

/-- After successfully creating a nonempty chain of directories, the full
target path is a directory. -/
theorem mkdirAlong_ok_self {rest : List String} (hne : rest ≠ []) {fs : FS}
    {done : FsPath} {fs2 : FS} (h : mkdirAlong fs done rest = .ok fs2) :
    fs2.find (done ++ rest) = some Node.dir := by
  induction rest generalizing fs done with
  | nil => exact absurd rfl hne
  | cons c cs ih =>
      unfold mkdirAlong at h
      cases hm : fs.mkdir1 (done ++ [c]) with
      | error e => rw [hm] at h; cases h
      | ok fs1 =>
          rw [hm] at h
          cases cs with
          | nil =>
              unfold mkdirAlong at h
              cases h
              simpa using mkdir1_ok_self hm
          | cons c2 cs2 =>
              have := ih (by simp) h
              simpa [List.append_assoc] using this

/-- The converter model root written out: the parent of the working
directory, then web, models, and the model directory name. -/
theorem convModelDir_eq (cwd : FsPath) :
    ConvertGemma.convModelDir cwd =
      ((cwd.dropLast ++ ["web"]) ++ ["models"]) ++ ["gemma-3-270m-onnx"] := rfl

/-- The converter model root is never the filesystem root. -/
theorem convModelDir_ne_nil (cwd : FsPath) : ConvertGemma.convModelDir cwd ≠ [] := by
  rw [convModelDir_eq]
  intro h
  simpa using congrArg List.length h

end GemmaSetup

namespace GemmaSetup

/-- A successful directory setup returns the converter model root, makes
the root and its two subdirectories directories, and preserves every
binding of the input filesystem. -/
theorem setup_directories_ok {cwd : FsPath} {fs0 fs1 : FS} {root : FsPath}
    (h : ConvertGemma.setup_directories cwd fs0 = .ok (fs1, root)) :
    root = ConvertGemma.convModelDir cwd ∧
    fs1.find root = some Node.dir ∧
    fs1.find (root ++ ["onnx"]) = some Node.dir ∧
    fs1.find (root ++ ["tokenizer"]) = some Node.dir ∧
    (∀ q n, fs0.find q = some n → fs1.find q = some n) := by
  unfold ConvertGemma.setup_directories at h
  cases hP : fs0.mkdirP (ConvertGemma.convModelDir cwd) with
  | error e => rw [hP] at h; cases h
  | ok fsa =>
      rw [hP] at h
      dsimp only at h
      cases h1 : fsa.mkdir1 (ConvertGemma.convModelDir cwd ++ ["onnx"]) with
      | error e => rw [h1] at h; cases h
      | ok fsb =>
          rw [h1] at h
          dsimp only at h
          cases h2 : fsb.mkdir1 (ConvertGemma.convModelDir cwd ++ ["tokenizer"]) with
          | error e => rw [h2] at h; cases h
          | ok fsc =>
              rw [h2] at h
              dsimp only at h
              cases h
              have hroot : fsa.find (ConvertGemma.convModelDir cwd) = some Node.dir := by
                have := mkdirAlong_ok_self (convModelDir_ne_nil cwd) hP
                simpa using this
              refine ⟨rfl, ?_, ?_, ?_, ?_⟩
              · exact mkdir1_ok_keep h2 (mkdir1_ok_keep h1 hroot)
              · exact mkdir1_ok_keep h2 (mkdir1_ok_self h1)
              · exact mkdir1_ok_self h2
              · intro q n hq
                exact mkdir1_ok_keep h2 (mkdir1_ok_keep h1 (mkdirAlong_ok_keep hP hq))

/-- The converter dependency check passes exactly when every probed
module is importable. -/
theorem check_dependencies_iff (imp : String → Bool) :
    ConvertGemma.check_dependencies imp = true ↔
      ∀ pkg ∈ ConvertGemma.required_packages, imp (ConvertGemma.convProbe pkg) = true := by
  unfold ConvertGemma.check_dependencies
  rw [filter_isEmpty_iff]
  constructor
  · intro h pkg hpkg
    have := h pkg hpkg
    simpa using this
  · intro h pkg hpkg
    simp [h pkg hpkg]

/-- If the converter dependency check passes, the two modules imported at
the top of the conversion routine are importable. -/
theorem check_dependencies_imports {imp : String → Bool}
    (h : ConvertGemma.check_dependencies imp = true) :
    imp "optimum.onnxruntime" = true ∧ imp "transformers" = true := by
  rw [check_dependencies_iff] at h
  constructor
  · have := h "optimum[onnxruntime]" (by simp [ConvertGemma.required_packages])
    simpa [ConvertGemma.convProbe] using this
  · have := h "transformers" (by simp [ConvertGemma.required_packages])
    simpa [ConvertGemma.convProbe] using this

/-- The missing list accumulated by the model-file loop is exactly the
sublist of relative files that do not exist under the root. -/
theorem modelFilesLoop_missing (fs : FS) (root : FsPath) (l : List String) :
    (CheckSetup.modelFilesLoop fs root l).1 =
      l.filter (fun f => (fs.find (root ++ splitPath f)).isNone) := by
  induction l with
  | nil => rfl
  | cons f rest ih =>
      unfold CheckSetup.modelFilesLoop
      cases hf : fs.find (root ++ splitPath f) with
      | none => simp [hf, ih]
      | some n => cases n <;> simp [hf, ih]

end GemmaSetup

namespace GemmaSetup

/-- The conversion routine never removes a path: whatever exists on entry
still exists in the filesystem it returns, whether it succeeds or
fails. -/
theorem convert_model_keeps (env : ConvertGemma.ConvEnv) (root : FsPath) (fs : FS)
    (q : FsPath) (h : (fs.find q).isSome) :
    (((ConvertGemma.convert_model_to_onnx env root fs).2).find q).isSome := by
  unfold ConvertGemma.convert_model_to_onnx
  repeat' split
  all_goals
    dsimp only [ConvertGemma.saveModelFiles, ConvertGemma.saveTokenizerFiles]
  all_goals
    repeat first
      | exact h
      | apply FS.find_write_isSome

/-- A successful conversion means both loads and all three write steps
succeeded, and the returned filesystem is the input plus the saved model,
the saved tokenizer and the config descriptor carrying the vocabulary
size of the loaded tokenizer. -/
theorem convert_model_true {env : ConvertGemma.ConvEnv} {root : FsPath} {fs : FS}
    (h : (ConvertGemma.convert_model_to_onnx env root fs).1 = true) :
    ∃ msize tok,
      env.modelLoad env.hfToken = .ok msize ∧
      env.tokLoad env.hfToken = .ok tok ∧
      env.modelSave = .ok () ∧ env.tokSave = .ok () ∧ env.configWrite = .ok () ∧
      (ConvertGemma.convert_model_to_onnx env root fs).2 =
        ((ConvertGemma.saveTokenizerFiles
            (ConvertGemma.saveModelFiles fs root msize) root tok).write
          (root ++ ["config.json"])
          (FileData.configFile (ConvertGemma.mkConfig tok.vocab_size))) := by
  cases hI : env.importable "optimum.onnxruntime" && env.importable "transformers" with
  | false => simp [ConvertGemma.convert_model_to_onnx, hI] at h
  | true =>
      cases hm : env.modelLoad env.hfToken with
      | error e => simp [ConvertGemma.convert_model_to_onnx, hI, hm] at h
      | ok msize =>
          cases ht : env.tokLoad env.hfToken with
          | error e => simp [ConvertGemma.convert_model_to_onnx, hI, hm, ht] at h
          | ok tok =>
              cases hs1 : env.modelSave with
              | error e => simp [ConvertGemma.convert_model_to_onnx, hI, hm, ht, hs1] at h
              | ok u =>
                  cases u
                  cases hs2 : env.tokSave with
                  | error e =>
                      simp [ConvertGemma.convert_model_to_onnx, hI, hm, ht, hs1, hs2] at h
                  | ok u =>
                      cases u
                      cases hs3 : env.configWrite with
                      | error e =>
                          simp [ConvertGemma.convert_model_to_onnx, hI, hm, ht, hs1, hs2,
                            hs3] at h
                      | ok u =>
                          cases u
                          refine ⟨msize, tok, rfl, rfl, rfl, rfl, rfl, ?_⟩
                          simp [ConvertGemma.convert_model_to_onnx, hI, hm, ht, hs1, hs2, hs3]

/-- The token-resolution line is a print, never an exit, so it does not
affect the exit code of a trace. -/
theorem exitCodeOf_tokenLine (t : Option String) (rest : List Eff) :
    exitCodeOf (ConvertGemma.tokenLine t :: rest) = exitCodeOf rest := by
  cases t <;> simp [ConvertGemma.tokenLine, exitCodeOf]

/-- Characterization of a zero exit of the converter: the dependency
check passed, directory setup did not raise, the conversion succeeded,
and the manifest write did not raise. -/
theorem main_exitCode_zero_iff (env : ConvertGemma.ConvEnv) (cwd : FsPath) (fs0 : FS) :
    (ConvertGemma.main env cwd fs0).exitCode = 0 ↔
      (ConvertGemma.check_dependencies env.importable = true ∧
       ∃ fs1 root, ConvertGemma.setup_directories cwd fs0 = .ok (fs1, root) ∧
         (ConvertGemma.convert_model_to_onnx env root fs1).1 = true ∧
         env.manifestWrite = .ok ()) := by
  unfold ConvertGemma.main
  cases hd : ConvertGemma.check_dependencies env.importable with
  | false =>
      simp [ConvertGemma.ConvResult.exitCode, exitCodeOf]
  | true =>
      cases hs : ConvertGemma.setup_directories cwd fs0 with
      | error e =>
          simp [ConvertGemma.ConvResult.exitCode, hs]
      | ok pr =>
          obtain ⟨fs1, root⟩ := pr
          cases hc : ConvertGemma.convert_model_to_onnx env root fs1 with
          | mk b fs2 =>
              cases b with
              | false =>
                  constructor
                  · intro hz
                    exfalso
                    simp [ConvertGemma.ConvResult.exitCode, hc,
                      exitCodeOf_tokenLine, exitCodeOf] at hz
                  · rintro ⟨-, fs1x, rootx, hsx, hcx, -⟩
                    cases hsx
                    rw [hc] at hcx
                    cases hcx
              | true =>
                  cases hw : env.manifestWrite with
                  | error e =>
                      constructor
                      · intro hz
                        simp [ConvertGemma.ConvResult.exitCode, hc, hw] at hz
                      · rintro ⟨-, fs1x, rootx, hsx, hcx, hwx⟩
                        cases hwx
                  | ok u =>
                      cases u
                      constructor
                      · intro hz
                        exact ⟨rfl, fs1, root, rfl, by rw [hc], rfl⟩
                      · intro hr
                        simp [ConvertGemma.ConvResult.exitCode, hc, hw,
                          exitCodeOf_tokenLine, exitCodeOf]

/-- Claim C3: the Setup Verifier main procedure runs all four checks for
every combination of outcomes, returns normally, and its effect trace
contains no exit call, so the process exit code it determines is zero. -/
theorem c3_verifier_never_exits (cwd : FsPath) (fs : FS) (importable : String → Bool)
    (whoamiResult : Except String String) :
    (CheckSetup.main cwd fs importable whoamiResult).checks =
      [(CheckSetup.check_files cwd fs).1, (CheckSetup.check_python_deps importable).1,
       CheckSetup.check_hf_auth whoamiResult, (CheckSetup.check_model_conversion cwd fs).ok] ∧
    (∀ n, Eff.exitCall n ∉ (CheckSetup.main cwd fs importable whoamiResult).trace) ∧
    exitCodeOf (CheckSetup.main cwd fs importable whoamiResult).trace = 0 := by
  refine ⟨rfl, ?_, ?_⟩
  · intro n hmem
    unfold CheckSetup.main at hmem
    dsimp only at hmem
    split at hmem <;> simp at hmem
  · unfold CheckSetup.main
    dsimp only
    split <;> rfl

/-- The importability oracle of an environment where exactly the four
modules the converter probes are importable, and in particular the onnx
and onnxruntime modules are not. -/
def sepImportable : String → Bool := fun s =>
  s = "transformers" || s = "optimum.onnxruntime" || s = "torch" || s = "huggingface_hub"

/-- Claim C9: the converter probes exactly the four modules transformers,
optimum.onnxruntime, torch and huggingface_hub; the verifier probes those
four plus onnx and onnxruntime; and in the environment where exactly
those four are importable the converter dependency check passes while
the verifier dependency check fails. -/
theorem c9_dependency_lists_differ :
    ConvertGemma.required_packages.map ConvertGemma.convProbe =
      ["transformers", "optimum.onnxruntime", "torch", "huggingface_hub"] ∧
    CheckSetup.deps.map CheckSetup.verifProbe =
      ConvertGemma.required_packages.map ConvertGemma.convProbe ++ ["onnx", "onnxruntime"] ∧
    sepImportable "onnx" = false ∧ sepImportable "onnxruntime" = false ∧
    ConvertGemma.check_dependencies sepImportable = true ∧
    (CheckSetup.check_python_deps sepImportable).1 = false := by
  decide

/-- An option is not none exactly when it is some. -/
theorem isNone_false_iff (o : Option Node) : o.isNone = false ↔ o.isSome = true := by
  cases o <;> simp

/-- Claim C4, counterexample: on the empty filesystem the model-conversion
check fails, but the set of names it reports as missing is empty while
every one of the four listed files is nonexistent, so the reported set is
not the set of nonexistent listed files. -/
theorem c4_missing_reported_counterexample :
    (CheckSetup.check_model_conversion ["d"] ([] : FS)).ok = false ∧
    (CheckSetup.check_model_conversion ["d"] ([] : FS)).missing = [] ∧
    CheckSetup.required_model_files.filter
        (fun f => ((FS.find [] (CheckSetup.verifModelDir ["d"] ++ splitPath f)).isNone)) =
      CheckSetup.required_model_files ∧
    CheckSetup.required_model_files ≠ [] := by
  decide

/-- Claim C4, amended: for the project-file list the check succeeds iff
every listed file exists and reports as missing exactly the listed files
that do not exist; for the model-file list the same holds provided the
model root directory itself exists, while with the root absent the check
fails reporting no per-file names. -/
theorem c4_missing_reported_amended (cwd : FsPath) (fs : FS) :
    ((CheckSetup.check_files cwd fs).1 = true ↔
      ∀ f ∈ CheckSetup.required_files, (fs.find (cwd ++ splitPath f)).isSome) ∧
    (∀ f, f ∈ (CheckSetup.check_files cwd fs).2 ↔
      (f ∈ CheckSetup.required_files ∧ (fs.find (cwd ++ splitPath f)).isNone)) ∧
    ((fs.find (CheckSetup.verifModelDir cwd)).isSome →
      ((CheckSetup.check_model_conversion cwd fs).ok = true ↔
        ∀ f ∈ CheckSetup.required_model_files,
          (fs.find (CheckSetup.verifModelDir cwd ++ splitPath f)).isSome) ∧
      (∀ f, f ∈ (CheckSetup.check_model_conversion cwd fs).missing ↔
        (f ∈ CheckSetup.required_model_files ∧
          (fs.find (CheckSetup.verifModelDir cwd ++ splitPath f)).isNone))) ∧
    ((fs.find (CheckSetup.verifModelDir cwd)).isNone →
      CheckSetup.check_model_conversion cwd fs = ⟨false, [], []⟩) := by
  refine ⟨?_, ?_, ?_, ?_⟩
  · unfold CheckSetup.check_files
    dsimp only
    rw [filter_isEmpty_iff]
    constructor
    · intro h f hf
      exact (isNone_false_iff _).mp (h f hf)
    · intro h f hf
      exact (isNone_false_iff _).mpr (h f hf)
  · intro f
    unfold CheckSetup.check_files
    dsimp only
    exact List.mem_filter
  · intro hdir
    obtain ⟨nd, hnd⟩ := Option.isSome_iff_exists.mp hdir
    unfold CheckSetup.check_model_conversion
    rw [hnd]
    dsimp only
    refine ⟨?_, ?_⟩
    · rw [modelFilesLoop_missing, filter_isEmpty_iff]
      constructor
      · intro h f hf
        exact (isNone_false_iff _).mp (h f hf)
      · intro h f hf
        exact (isNone_false_iff _).mpr (h f hf)
    · intro f
      rw [modelFilesLoop_missing]
      exact List.mem_filter
  · intro hnone
    rw [Option.isNone_iff_eq_none] at hnone
    unfold CheckSetup.check_model_conversion
    rw [hnone]

/-- A filesystem where the verifier model root exists but the tokenizer
file is absent, used to instantiate the amended claim C4. -/
def fsC4 : FS :=
  [(["d", "models", "gemma-3-270m-onnx"], Node.dir),
   (["d", "models", "gemma-3-270m-onnx", "onnx", "model.onnx"], Node.file (FileData.raw 2048)),
   (["d", "models", "gemma-3-270m-onnx", "config.json"], Node.file (FileData.raw 300)),
   (["d", "models", "gemma-3-270m-onnx", "manifest.json"], Node.file (FileData.raw 400))]

/-- Witness for the amended claim C4, at a filesystem whose model root
exists. -/
theorem c4_missing_reported_witness :
    "tokenizer/tokenizer.json" ∈ (CheckSetup.check_model_conversion ["d"] fsC4).missing ↔
      ("tokenizer/tokenizer.json" ∈ CheckSetup.required_model_files ∧
        (fsC4.find (CheckSetup.verifModelDir ["d"] ++
          splitPath "tokenizer/tokenizer.json")).isNone) :=
  ((c4_missing_reported_amended ["d"] fsC4).2.2.1 (by decide)).2 "tokenizer/tokenizer.json"

/-- Claim C5: whenever the model root exists and all four required
relative files exist under it as regular files, the model-conversion
check succeeds, reports nothing missing, and reports for each file the
size in megabytes given by its byte size divided by 1048576 rounded to
one decimal place. -/
theorem c5_model_check_sizes (cwd : FsPath) (fs : FS) (d1 d2 d3 d4 : FileData)
    (hdir : (fs.find (CheckSetup.verifModelDir cwd)).isSome)
    (h1 : fs.find (CheckSetup.verifModelDir cwd ++ splitPath "onnx/model.onnx") =
      some (Node.file d1))
    (h2 : fs.find (CheckSetup.verifModelDir cwd ++ splitPath "tokenizer/tokenizer.json") =
      some (Node.file d2))
    (h3 : fs.find (CheckSetup.verifModelDir cwd ++ splitPath "config.json") =
      some (Node.file d3))
    (h4 : fs.find (CheckSetup.verifModelDir cwd ++ splitPath "manifest.json") =
      some (Node.file d4)) :
    CheckSetup.check_model_conversion cwd fs =
      ⟨true, [],
       [("onnx/model.onnx", displayMB d1.size),
        ("tokenizer/tokenizer.json", displayMB d2.size),
        ("config.json", displayMB d3.size),
        ("manifest.json", displayMB d4.size)]⟩ := by
  obtain ⟨nd, hnd⟩ := Option.isSome_iff_exists.mp hdir
  unfold CheckSetup.check_model_conversion
  rw [hnd]
  dsimp only
  simp [CheckSetup.required_model_files, CheckSetup.modelFilesLoop, h1, h2, h3, h4]

/-- A filesystem holding the model root and all four required files, used
to instantiate claim C5. -/
def fsC5 : FS :=
  [(["srv", "models", "gemma-3-270m-onnx"], Node.dir),
   (["srv", "models", "gemma-3-270m-onnx", "onnx", "model.onnx"],
    Node.file (FileData.raw 272629760)),
   (["srv", "models", "gemma-3-270m-onnx", "tokenizer", "tokenizer.json"],
    Node.file (FileData.raw 33554432)),
   (["srv", "models", "gemma-3-270m-onnx", "config.json"], Node.file (FileData.raw 289)),
   (["srv", "models", "gemma-3-270m-onnx", "manifest.json"], Node.file (FileData.raw 418))]

/-- Witness for claim C5 at a concrete populated model root. -/
theorem c5_model_check_sizes_witness :
    CheckSetup.check_model_conversion ["srv"] fsC5 =
      ⟨true, [],
       [("onnx/model.onnx", displayMB 272629760),
        ("tokenizer/tokenizer.json", displayMB 33554432),
        ("config.json", displayMB 289),
        ("manifest.json", displayMB 418)]⟩ :=
  c5_model_check_sizes ["srv"] fsC5 (FileData.raw 272629760) (FileData.raw 33554432)
    (FileData.raw 289) (FileData.raw 418) (by decide) (by decide) (by decide)
    (by decide) (by decide)

/-- The premise of the idempotence claim: every prefix of the target,
walked component by component from the given base, is already a
directory. -/
def dirsAlong (fs : FS) (done : FsPath) : List String → Bool
  | [] => true
  | c :: cs => (decide (fs.find (done ++ [c]) = some Node.dir)) && dirsAlong fs (done ++ [c]) cs

/-- Creating a chain of directories that all already exist changes
nothing and raises nothing. -/
theorem mkdirAlong_noop {rest : List String} {fs : FS} {done : FsPath}
    (h : dirsAlong fs done rest = true) : mkdirAlong fs done rest = .ok fs := by
  induction rest generalizing done with
  | nil => rfl
  | cons c cs ih =>
      unfold dirsAlong at h
      rw [Bool.and_eq_true] at h
      obtain ⟨h1, h2⟩ := h
      have h1x : fs.find (done ++ [c]) = some Node.dir := of_decide_eq_true h1
      have hm : fs.mkdir1 (done ++ [c]) = .ok fs := by
        unfold FS.mkdir1
        rw [h1x]
      unfold mkdirAlong
      rw [hm]
      exact ih h2

/-- Claim C6: directory setup is idempotent; on a filesystem already
containing the model root chain and both subdirectories as directories,
whatever files they hold, it raises no error and returns the filesystem
unchanged, so nothing is removed or altered and the directory structure
is the one a first run on an empty filesystem produces. -/
theorem c6_setup_directories_idempotent (cwd : FsPath) (fs : FS)
    (hAlong : dirsAlong fs [] (ConvertGemma.convModelDir cwd) = true)
    (hOnnx : fs.find (ConvertGemma.convModelDir cwd ++ ["onnx"]) = some Node.dir)
    (hTok : fs.find (ConvertGemma.convModelDir cwd ++ ["tokenizer"]) = some Node.dir) :
    ConvertGemma.setup_directories cwd fs = .ok (fs, ConvertGemma.convModelDir cwd) := by
  have hP : fs.mkdirP (ConvertGemma.convModelDir cwd) = .ok fs := mkdirAlong_noop hAlong
  have hO : fs.mkdir1 (ConvertGemma.convModelDir cwd ++ ["onnx"]) = .ok fs := by
    unfold FS.mkdir1
    rw [hOnnx]
  have hT : fs.mkdir1 (ConvertGemma.convModelDir cwd ++ ["tokenizer"]) = .ok fs := by
    unfold FS.mkdir1
    rw [hTok]
  unfold ConvertGemma.setup_directories
  rw [hP]
  dsimp only
  rw [hO]
  dsimp only
  rw [hT]

/-- The directory structure a first converter run on an empty filesystem
creates when started from a directory named setup at the filesystem
root. -/
def fsC6 : FS :=
  [(["web", "models", "gemma-3-270m-onnx", "tokenizer"], Node.dir),
   (["web", "models", "gemma-3-270m-onnx", "onnx"], Node.dir),
   (["web", "models", "gemma-3-270m-onnx"], Node.dir),
   (["web", "models"], Node.dir),
   (["web"], Node.dir)]

/-- Witness for claim C6: a first run on the empty filesystem produces
exactly the directories of fsC6, and rerunning directory setup on that
populated filesystem succeeds and returns it unchanged. -/
theorem c6_setup_directories_idempotent_witness :
    ConvertGemma.setup_directories ["setup"] ([] : FS) =
      .ok (fsC6, ConvertGemma.convModelDir ["setup"]) ∧
    ConvertGemma.setup_directories ["setup"] fsC6 =
      .ok (fsC6, ConvertGemma.convModelDir ["setup"]) :=
  ⟨rfl, c6_setup_directories_idempotent ["setup"] fsC6 (by decide) (by decide) (by decide)⟩

/-- After a run of the conversion routine in which both loads and the
model save succeeded, the saved model file is present in the returned
filesystem whatever happened later. -/
theorem convert_saved_model {env : ConvertGemma.ConvEnv} {root : FsPath} {fs : FS}
    {msize : Nat} {tok : TokInfo}
    (himpO : env.importable "optimum.onnxruntime" = true)
    (himpT : env.importable "transformers" = true)
    (hm : env.modelLoad env.hfToken = .ok msize)
    (ht : env.tokLoad env.hfToken = .ok tok)
    (hs1 : env.modelSave = .ok ()) :
    (((ConvertGemma.convert_model_to_onnx env root fs).2).find
      (root ++ ["onnx", "model.onnx"])).isSome := by
  cases hts : env.tokSave with
  | error e =>
      have hv : (ConvertGemma.convert_model_to_onnx env root fs).2 =
          ConvertGemma.saveModelFiles fs root msize := by
        simp [ConvertGemma.convert_model_to_onnx, himpO, himpT, hm, ht, hs1, hts]
      rw [hv]
      unfold ConvertGemma.saveModelFiles
      rw [FS.find_write_self]
      rfl
  | ok u =>
      cases u
      cases hcw : env.configWrite with
      | error e =>
          have hv : (ConvertGemma.convert_model_to_onnx env root fs).2 =
              ConvertGemma.saveTokenizerFiles
                (ConvertGemma.saveModelFiles fs root msize) root tok := by
            simp [ConvertGemma.convert_model_to_onnx, himpO, himpT, hm, ht, hs1, hts, hcw]
          rw [hv]
          unfold ConvertGemma.saveTokenizerFiles
          rw [FS.find_write_ne _ _ _ _ (by simp)]
          unfold ConvertGemma.saveModelFiles
          rw [FS.find_write_self]
          rfl
      | ok u =>
          cases u
          have hv : (ConvertGemma.convert_model_to_onnx env root fs).2 =
              (ConvertGemma.saveTokenizerFiles
                (ConvertGemma.saveModelFiles fs root msize) root tok).write
                (root ++ ["config.json"])
                (FileData.configFile (ConvertGemma.mkConfig tok.vocab_size)) := by
            simp [ConvertGemma.convert_model_to_onnx, himpO, himpT, hm, ht, hs1, hts, hcw]
          rw [hv]
          rw [FS.find_write_ne _ _ _ _ (by simp)]
          unfold ConvertGemma.saveTokenizerFiles
          rw [FS.find_write_ne _ _ _ _ (by simp)]
          unfold ConvertGemma.saveModelFiles
          rw [FS.find_write_self]
          rfl

/-- After a run of the conversion routine in which both loads and both
saves succeeded, the saved tokenizer file is present in the returned
filesystem whatever happened later. -/
theorem convert_saved_tokenizer {env : ConvertGemma.ConvEnv} {root : FsPath} {fs : FS}
    {msize : Nat} {tok : TokInfo}
    (himpO : env.importable "optimum.onnxruntime" = true)
    (himpT : env.importable "transformers" = true)
    (hm : env.modelLoad env.hfToken = .ok msize)
    (ht : env.tokLoad env.hfToken = .ok tok)
    (hs1 : env.modelSave = .ok ()) (hs2 : env.tokSave = .ok ()) :
    (((ConvertGemma.convert_model_to_onnx env root fs).2).find
      (root ++ ["tokenizer", "tokenizer.json"])).isSome := by
  cases hcw : env.configWrite with
  | error e =>
      have hv : (ConvertGemma.convert_model_to_onnx env root fs).2 =
          ConvertGemma.saveTokenizerFiles
            (ConvertGemma.saveModelFiles fs root msize) root tok := by
        simp [ConvertGemma.convert_model_to_onnx, himpO, himpT, hm, ht, hs1, hs2, hcw]
      rw [hv]
      unfold ConvertGemma.saveTokenizerFiles
      rw [FS.find_write_self]
      rfl
  | ok u =>
      cases u
      have hv : (ConvertGemma.convert_model_to_onnx env root fs).2 =
          (ConvertGemma.saveTokenizerFiles
            (ConvertGemma.saveModelFiles fs root msize) root tok).write
            (root ++ ["config.json"])
            (FileData.configFile (ConvertGemma.mkConfig tok.vocab_size)) := by
        simp [ConvertGemma.convert_model_to_onnx, himpO, himpT, hm, ht, hs1, hs2, hcw]
      rw [hv]
      rw [FS.find_write_ne _ _ _ _ (by simp)]
      unfold ConvertGemma.saveTokenizerFiles
      rw [FS.find_write_self]
      rfl

/-- Claim C7: whenever the conversion routine reports success, the config
descriptor written at the model root carries a vocab_size field equal to
the vocabulary size reported by the loaded tokenizer. -/
theorem c7_config_vocab_size (env : ConvertGemma.ConvEnv) (root : FsPath) (fs : FS)
    (h : (ConvertGemma.convert_model_to_onnx env root fs).1 = true) :
    ∃ tok, env.tokLoad env.hfToken = .ok tok ∧
      (ConvertGemma.convert_model_to_onnx env root fs).2.find (root ++ ["config.json"]) =
        some (Node.file (FileData.configFile (ConvertGemma.mkConfig tok.vocab_size))) ∧
      (ConvertGemma.mkConfig tok.vocab_size).vocab_size = tok.vocab_size := by
  obtain ⟨msize, tok, hm, ht, hs1, hs2, hs3, hfs⟩ := convert_model_true h
  refine ⟨tok, ht, ?_, rfl⟩
  rw [hfs]
  exact FS.find_write_self _ _ _

/-- The importability oracle of a fully provisioned environment: all six
modules either tool probes are importable. -/
def stdImportable : String → Bool := fun s =>
  s = "transformers" || s = "optimum.onnxruntime" || s = "torch" ||
  s = "huggingface_hub" || s = "onnx" || s = "onnxruntime"

/-- A fully working external world: dependencies installed, a token in
the environment, loads and saves all succeed. -/
def envOK : ConvertGemma.ConvEnv :=
  { importable := stdImportable
    hfToken := some "hf-token"
    modelLoad := fun _ => .ok 272629760
    tokLoad := fun _ => .ok ⟨262144, 33554432⟩
    modelSave := .ok ()
    tokSave := .ok ()
    configWrite := .ok ()
    manifestWrite := .ok () }

/-- The working directory both tools are started from in the concrete
runs: the directory holding the scripts. -/
def cwd0 : FsPath := ["home", "demo", "setup"]

/-- The model root the converter resolves from cwd0. -/
def convRoot0 : FsPath := ["home", "demo", "web", "models", "gemma-3-270m-onnx"]

/-- The filesystem produced by directory setup from cwd0 on the empty
filesystem. -/
def fsSetup0 : FS :=
  [(convRoot0 ++ ["tokenizer"], Node.dir),
   (convRoot0 ++ ["onnx"], Node.dir),
   (convRoot0, Node.dir),
   (["home", "demo", "web", "models"], Node.dir),
   (["home", "demo", "web"], Node.dir),
   (["home", "demo"], Node.dir),
   (["home"], Node.dir)]

/-- Witness for claim C7 at the fully working environment. -/
theorem c7_config_vocab_size_witness :
    ∃ tok, envOK.tokLoad envOK.hfToken = .ok tok ∧
      (ConvertGemma.convert_model_to_onnx envOK convRoot0 fsSetup0).2.find
          (convRoot0 ++ ["config.json"]) =
        some (Node.file (FileData.configFile (ConvertGemma.mkConfig tok.vocab_size))) ∧
      (ConvertGemma.mkConfig tok.vocab_size).vocab_size = tok.vocab_size :=
  c7_config_vocab_size envOK convRoot0 fsSetup0 (by decide)

/-- Claim C8: with HF_TOKEN unset the converter prints the warning and
proceeds; if the export then fails (for example because authentication
was required), the run exits 1 with the failure at the export call, and
the model root and both subdirectories have already been created by the
time the run fails. -/
theorem c8_no_token_fail_at_export (env : ConvertGemma.ConvEnv) (cwd : FsPath)
    (fs0 fs1 : FS) (root : FsPath) (e : String)
    (htok : env.hfToken = none)
    (hdep : ConvertGemma.check_dependencies env.importable = true)
    (hsetup : ConvertGemma.setup_directories cwd fs0 = .ok (fs1, root))
    (hload : env.modelLoad none = .error e) :
    (ConvertGemma.main env cwd fs0).exitCode = 1 ∧
    Eff.print "No HF_TOKEN found. You may need to authenticate" ∈
      (ConvertGemma.main env cwd fs0).trace ∧
    (ConvertGemma.main env cwd fs0).fs.find root = some Node.dir ∧
    (ConvertGemma.main env cwd fs0).fs.find (root ++ ["onnx"]) = some Node.dir ∧
    (ConvertGemma.main env cwd fs0).fs.find (root ++ ["tokenizer"]) = some Node.dir := by
  obtain ⟨hrooteq, hdroot, honnx, htokd, hkeep⟩ := setup_directories_ok hsetup
  obtain ⟨himpO, himpT⟩ := check_dependencies_imports hdep
  have hconv : ConvertGemma.convert_model_to_onnx env root fs1 = (false, fs1) := by
    simp [ConvertGemma.convert_model_to_onnx, himpO, himpT, htok, hload]
  have hmain : ConvertGemma.main env cwd fs0 =
      { trace := [ConvertGemma.tokenLine none, Eff.exitCall 1],
        fs := fs1, crashed := false } := by
    simp [ConvertGemma.main, hdep, hsetup, hconv, htok]
  rw [hmain]
  refine ⟨rfl, ?_, hdroot, honnx, htokd⟩
  simp [ConvertGemma.tokenLine]

/-- An environment with no HF_TOKEN where the model export requires
authentication and therefore raises. -/
def envC8 : ConvertGemma.ConvEnv :=
  { envOK with
    hfToken := none
    modelLoad := fun t =>
      match t with
      | some _ => .ok 272629760
      | none => .error "401 Client Error: Unauthorized" }

/-- Witness for claim C8: the concrete unauthenticated run from cwd0 on
the empty filesystem. -/
theorem c8_no_token_fail_at_export_witness :
    (ConvertGemma.main envC8 cwd0 ([] : FS)).exitCode = 1 ∧
    Eff.print "No HF_TOKEN found. You may need to authenticate" ∈
      (ConvertGemma.main envC8 cwd0 ([] : FS)).trace ∧
    (ConvertGemma.main envC8 cwd0 ([] : FS)).fs.find convRoot0 = some Node.dir ∧
    (ConvertGemma.main envC8 cwd0 ([] : FS)).fs.find (convRoot0 ++ ["onnx"]) = some Node.dir ∧
    (ConvertGemma.main envC8 cwd0 ([] : FS)).fs.find (convRoot0 ++ ["tokenizer"]) =
      some Node.dir :=
  c8_no_token_fail_at_export envC8 cwd0 ([] : FS) fsSetup0 convRoot0
    "401 Client Error: Unauthorized" rfl (by decide) rfl rfl

/-- Claim C10: when the conversion fails after directory setup, the error
path deletes nothing: the run exits 1 keeping exactly the filesystem the
conversion routine had written, every path present after directory setup
is still present, and each artifact of a completed step (the saved model,
the saved tokenizer) is still present at exit. -/
theorem c10_failure_preserves_files (env : ConvertGemma.ConvEnv) (cwd : FsPath)
    (fs0 fs1 : FS) (root : FsPath)
    (hdep : ConvertGemma.check_dependencies env.importable = true)
    (hsetup : ConvertGemma.setup_directories cwd fs0 = .ok (fs1, root))
    (hconv : (ConvertGemma.convert_model_to_onnx env root fs1).1 = false) :
    (ConvertGemma.main env cwd fs0).exitCode = 1 ∧
    (ConvertGemma.main env cwd fs0).fs = (ConvertGemma.convert_model_to_onnx env root fs1).2 ∧
    (∀ q, (fs1.find q).isSome → ((ConvertGemma.main env cwd fs0).fs.find q).isSome) ∧
    (∀ msize tok, env.modelLoad env.hfToken = .ok msize →
      env.tokLoad env.hfToken = .ok tok → env.modelSave = .ok () →
      ((ConvertGemma.main env cwd fs0).fs.find (root ++ ["onnx", "model.onnx"])).isSome) ∧
    (∀ msize tok, env.modelLoad env.hfToken = .ok msize →
      env.tokLoad env.hfToken = .ok tok → env.modelSave = .ok () → env.tokSave = .ok () →
      ((ConvertGemma.main env cwd fs0).fs.find
        (root ++ ["tokenizer", "tokenizer.json"])).isSome) := by
  obtain ⟨himpO, himpT⟩ := check_dependencies_imports hdep
  have hpair : ConvertGemma.convert_model_to_onnx env root fs1 =
      (false, (ConvertGemma.convert_model_to_onnx env root fs1).2) := by
    rw [← hconv]
  have hmain : ConvertGemma.main env cwd fs0 =
      { trace := [ConvertGemma.tokenLine env.hfToken, Eff.exitCall 1],
        fs := (ConvertGemma.convert_model_to_onnx env root fs1).2, crashed := false } := by
    conv =>
      lhs
      rw [ConvertGemma.main]
    rw [hdep, hsetup]
    dsimp only
    rw [hpair]
    exact rfl
  refine ⟨?_, ?_, ?_, ?_, ?_⟩
  · rw [hmain]
    unfold ConvertGemma.ConvResult.exitCode
    dsimp only
    rw [exitCodeOf_tokenLine]
    rfl
  · rw [hmain]
  · intro q hq
    rw [hmain]
    exact convert_model_keeps env root fs1 q hq
  · intro msize tok hm ht hs1
    rw [hmain]
    exact convert_saved_model himpO himpT hm ht hs1
  · intro msize tok hm ht hs1 hs2
    rw [hmain]
    exact convert_saved_tokenizer himpO himpT hm ht hs1 hs2

/-- An environment where everything works except that saving the
tokenizer raises, leaving a saved model with no tokenizer. -/
def envC10 : ConvertGemma.ConvEnv :=
  { envOK with tokSave := .error "OSError: disk full" }

/-- Witness for claim C10: in the run where the tokenizer save raises,
the process exits 1 and the already saved model file is still present. -/
theorem c10_failure_preserves_files_witness :
    (ConvertGemma.main envC10 cwd0 ([] : FS)).exitCode = 1 ∧
    ((ConvertGemma.main envC10 cwd0 ([] : FS)).fs.find
      (convRoot0 ++ ["onnx", "model.onnx"])).isSome :=
  ⟨(c10_failure_preserves_files envC10 cwd0 ([] : FS) fsSetup0 convRoot0
      (by decide) rfl (by decide)).1,
   (c10_failure_preserves_files envC10 cwd0 ([] : FS) fsSetup0 convRoot0
      (by decide) rfl (by decide)).2.2.2.1 272629760 ⟨262144, 33554432⟩ rfl rfl rfl⟩

/-- An environment where dependencies are present and the conversion
succeeds, but the manifest write raises. -/
def envC2 : ConvertGemma.ConvEnv :=
  { envOK with manifestWrite := .error "OSError: no space left on device" }

/-- Claim C2, counterexample: a run with the dependency check passing and
the conversion step succeeding that still exits non-zero, because the
uncaught exception of the manifest write kills the process; the claimed
equivalence fails in this run. -/
theorem c2_exit_code_counterexample :
    ConvertGemma.check_dependencies envC2.importable = true ∧
    ConvertGemma.setup_directories cwd0 ([] : FS) = .ok (fsSetup0, convRoot0) ∧
    (ConvertGemma.convert_model_to_onnx envC2 convRoot0 fsSetup0).1 = true ∧
    (ConvertGemma.main envC2 cwd0 ([] : FS)).exitCode ≠ 0 :=
  ⟨by decide, rfl, by decide, by decide⟩

/-- Claim C2, amended: the converter exits zero exactly when the
dependency check passes, directory setup raises no exception, the
conversion step succeeds, and the manifest write raises no exception;
every other run exits non-zero. -/
theorem c2_exit_code_amended (env : ConvertGemma.ConvEnv) (cwd : FsPath) (fs0 : FS) :
    (ConvertGemma.main env cwd fs0).exitCode = 0 ↔
      (ConvertGemma.check_dependencies env.importable = true ∧
       ∃ fs1 root, ConvertGemma.setup_directories cwd fs0 = .ok (fs1, root) ∧
         (ConvertGemma.convert_model_to_onnx env root fs1).1 = true ∧
         env.manifestWrite = .ok ()) :=
  main_exitCode_zero_iff env cwd fs0

/-- Whether a node is a regular file. -/
def Node.isFileNode : Node → Bool
  | Node.dir => false
  | Node.file _ => true

/-- The regular-file entries of the filesystem lying under a root
directory, in entry order. -/
def filesUnder (fs : FS) (root : FsPath) : List FsPath :=
  (fs.filter (fun e => root.isPrefixOf e.1 && e.2.isFileNode)).map Prod.fst

/-- Claim C1: in the end-to-end scenario (all dependencies installed, no
model directory present, a valid token), the converter exits zero and its
model root contains exactly the four required relative files at the
relative locations the verifier tests; but the verifier resolves a
different model root (models/gemma-3-270m-onnx against its working
directory, not ../web/models/gemma-3-270m-onnx), finds nothing there, and
its model-conversion check reports failure, contradicting the claimed
end-to-end pass. -/
theorem c1_layout_not_seen_by_verifier :
    (ConvertGemma.main envOK cwd0 ([] : FS)).exitCode = 0 ∧
    filesUnder (ConvertGemma.main envOK cwd0 ([] : FS)).fs convRoot0 =
      [convRoot0 ++ ["manifest.json"], convRoot0 ++ ["config.json"],
       convRoot0 ++ ["tokenizer", "tokenizer.json"], convRoot0 ++ ["onnx", "model.onnx"]] ∧
    (CheckSetup.required_model_files.all (fun f =>
      ((ConvertGemma.main envOK cwd0 ([] : FS)).fs.find
        (convRoot0 ++ splitPath f)).isSome)) = true ∧
    CheckSetup.verifModelDir cwd0 ≠ convRoot0 ∧
    (ConvertGemma.main envOK cwd0 ([] : FS)).fs.find (CheckSetup.verifModelDir cwd0) = none ∧
    (CheckSetup.check_model_conversion cwd0 (ConvertGemma.main envOK cwd0 ([] : FS)).fs).ok =
      false := by
  decide
